import Mathlib

/-
Verification of the `onemut` staged all-or-none mutation primitive.

The Rust source under verification is `src/prepared.rs`. Its helper types
(`Token`, `ConsumedToken`, the `Take`/`TakeOwned` capability traits, `Chain`,
and `AllOrNone`) are declared in the crate's other modules, which are not part
of the provided source; they are modelled from the specification where noted.

Embedding conventions:
- A Rust transform `F: FnOnce(&mut T) -> Result<O, E>` becomes a pure function
  `T → T × Except E O`: applied to the scratch value it returns the (possibly
  mutated) scratch together with the result, so a transform may mutate its
  scratch argument even on the error path, exactly as `&mut T` permits.
- `Result<A, B>` becomes `Except B A`.
- Rust's in-place mutation through the container is made explicit by threading
  the container state: `apply` returns its Rust result paired with the final
  container state, so the guarded slot remains observable after the call.
- `clone()` on pure values is the identity.
-/

namespace Onemut

/-- Modelled from the spec: `Token<T>` is an opaque, non-duplicable capability
representing the exclusive right to take ownership of the guarded value out of
its container. Its identity is represented by an abstract id. -/
structure Token (T : Type) where
  tid : Nat

/-- Modelled from the spec: `ConsumedToken<T>` is the token's terminal state
after a successful commit. -/
structure ConsumedToken (T : Type) where
  token : Token T

/-- `ConsumedToken::from(t)`: wraps a `Token` as consumed (`from` is a Lean
keyword, hence the name). -/
def ConsumedToken.fromToken {T : Type} (t : Token T) : ConsumedToken T :=
  ⟨t⟩

/-- Modelled from the spec: the capability accessor interfaces (`Take<T,
target::Type>`, `Take<Token, target::Token>` and `TakeOwned<Token,
target::Token>` in the source's `super`). A container exposes borrowed read
access and write access to its inner value, and one-time destructive
extraction of the guard token. `take_mut` only ever flows into an assignment
(`*current = next` in `replace`), so it is embedded as a functional setter.
The read-after-write law states that the write access writes the very slot the
read access reads, which is what "borrowed read/write access to its inner
value" means. -/
structure ContainerOps (C : Type) (T : Type) where
  take_ref : C → T
  take_mut_set : C → T → C
  take_owned : C → Token T
  take_ref_set : ∀ c v, take_ref (take_mut_set c v) = v

/-- `Prepared<OuterT, T, F, E>` from `src/prepared.rs`: a container paired with
a staged transform. The `PhantomData` parameters are dropped. -/
structure Prepared (C : Type) (F : Type) where
  inner : C
  f : F

/-- Modelled from the spec: `Chain` owns two staged units, A then B, ordered. -/
structure Chain (A : Type) (B : Type) where
  a : A
  b : B

/-- Modelled from the spec: `Chain::new` pairs the two units. -/
def Chain.new {A B : Type} (a : A) (b : B) : Chain A B :=
  ⟨a, b⟩

variable {C T E O F A2 : Type}

/-- `Take<FInner, target::Function>::take_ref` for `Prepared`: borrows the
stored transform. -/
def Prepared.take_ref (p : Prepared C F) : F :=
  p.f

/-- `TakeOwned<Token, target::Token>::take_owned` for `Prepared`: delegates to
the inner container. -/
def Prepared.take_owned (ops : ContainerOps C T) (p : Prepared C F) : Token T :=
  ops.take_owned p.inner

/-- `Prepared::new(outer, f)`. -/
def Prepared.new (outer : C) (f : F) : Prepared C F :=
  ⟨outer, f⟩

/-- `Prepared::chain(self, a2)`. -/
def Prepared.chain (p : Prepared C F) (a2 : A2) : Chain (Prepared C F) A2 :=
  Chain.new p a2

/-- `Prepared::cancel(self)`: extracts the Token from the inner container. -/
def Prepared.cancel (ops : ContainerOps C T) (p : Prepared C F) : Token T :=
  ops.take_owned p.inner

/-- `Prepared::unchecked_cancel(self)`: the safe wrapper around `cancel`. -/
def Prepared.unchecked_cancel (ops : ContainerOps C T) (p : Prepared C F) : Token T :=
  Prepared.cancel ops p

/-- `PartialApply::get_next` for `Prepared`: a scratch copy of the current
guarded value (the Rust `clone()` of the borrowed value is the identity on
pure values). -/
def Prepared.get_next (ops : ContainerOps C T) (p : Prepared C F) : T :=
  ops.take_ref p.inner

/-- `PartialApply::modify_next` for `Prepared`: runs `f` on the scratch copy;
the `?` operator propagates the error, discarding the scratch. -/
def Prepared.modify_next (next : T) (f : T → T × Except E O) : Except E (O × T) :=
  match f next with
  | (next, Except.ok o) => Except.ok (o, next)
  | (_, Except.error e) => Except.error e

/-- `PartialApply::replace` for `Prepared`: overwrites the container's guarded
slot with the mutated scratch. -/
def Prepared.replace (ops : ContainerOps C T) (p : Prepared C F) (next : T) :
    Prepared C F :=
  { p with inner := ops.take_mut_set p.inner next }

/-- Modelled from the spec: `crate::AllOrNone<O, E, T>` is
`Result<(O, ConsumedToken<T>), (E, Token<T>)>` (spec section 4.2, signature of
`apply`). -/
def AllOrNone (O E T : Type) : Type :=
  Except (E × Token T) (O × ConsumedToken T)

/-- `Apply::apply` for `Prepared` (`src/prepared.rs` lines 109-137), paired
with the final state of the container so the guarded slot stays observable:
snapshot the value, clone the transform (identity here), run `modify_next`; on
error extract the Token and fail; on success `replace`, then extract the Token
and wrap it as consumed. -/
def Prepared.apply (ops : ContainerOps C T)
    (p : Prepared C (T → T × Except E O)) : AllOrNone O E T × C :=
  let next := Prepared.get_next ops p
  let f := p.f
  match Prepared.modify_next next f with
  | Except.error e => (Except.error (e, ops.take_owned p.inner), p.inner)
  | Except.ok (o, next) =>
      let p2 := Prepared.replace ops p next
      (Except.ok (o, ConsumedToken.fromToken (ops.take_owned p2.inner)), p2.inner)

/-- Modelled from the spec: `Chain::apply` (spec section 4.3; the `Chain`
source file is not under `src/`). Apply A; if A fails, fail immediately with
A's error and Token, leaving B's container untouched; if A succeeds, apply B;
overall success requires both. -/
def Chain.apply {CA TA EA OA CB TB EB OB : Type}
    (opsA : ContainerOps CA TA) (opsB : ContainerOps CB TB)
    (ch : Chain (Prepared CA (TA → TA × Except EA OA))
      (Prepared CB (TB → TB × Except EB OB))) :
    Except ((EA × Token TA) ⊕ (EB × Token TB))
      ((OA × OB) × ConsumedToken TA × ConsumedToken TB) × CA × CB :=
  match Prepared.apply opsA ch.a with
  | (Except.error (e, t), ca) => (Except.error (Sum.inl (e, t)), ca, ch.b.inner)
  | (Except.ok (oa, cta), ca) =>
      match Prepared.apply opsB ch.b with
      | (Except.error (e, t), cb) => (Except.error (Sum.inr (e, t)), ca, cb)
      | (Except.ok (ob, ctb), cb) => (Except.ok ((oa, ob), cta, ctb), ca, cb)

/-- Modelled from the spec: the canonical container, a holder of a guarded
value together with its not-yet-extracted guard token, used to instantiate the
generic theorems on concrete inputs. -/
structure Container (T : Type) where
  value : T
  token : Token T

/-- The capability accessors of the canonical container. -/
def Container.ops (T : Type) : ContainerOps (Container T) T where
  take_ref c := c.value
  take_mut_set c v := { c with value := v }
  take_owned c := c.token
  take_ref_set := fun _ _ => rfl

/-! ### Helper lemmas shared by the claim theorems -/

/-- Unfolding `apply` on the error path of the transform. -/
theorem Prepared.apply_eq_of_error (ops : ContainerOps C T)
    (p : Prepared C (T → T × Except E O)) (e : E) (y : T)
    (h : p.f (ops.take_ref p.inner) = (y, Except.error e)) :
    Prepared.apply ops p = (Except.error (e, ops.take_owned p.inner), p.inner) := by
  simp [Prepared.apply, Prepared.get_next, Prepared.modify_next, h]

/-- Unfolding `apply` on the success path of the transform. -/
theorem Prepared.apply_eq_of_ok (ops : ContainerOps C T)
    (p : Prepared C (T → T × Except E O)) (o : O) (x2 : T)
    (h : p.f (ops.take_ref p.inner) = (x2, Except.ok o)) :
    Prepared.apply ops p
      = (Except.ok (o, ConsumedToken.fromToken
            (ops.take_owned (ops.take_mut_set p.inner x2))),
         ops.take_mut_set p.inner x2) := by
  simp [Prepared.apply, Prepared.get_next, Prepared.modify_next,
    Prepared.replace, h]

/-- The `inner` field of a freshly built unit is the given container. -/
theorem Prepared.new_inner (c : C) (f : F) : (Prepared.new c f).inner = c :=
  rfl

/-! ### Claim theorems -/

/-- C1: for every container holding guarded value `x` and every transform `F`
such that `F(x)` succeeds producing output `o` and mutated value `x2`, `apply`
on the Prepared unit returns `Ok((o, consumed))` with `consumed` a
`ConsumedToken`, and the container's guarded slot afterwards holds `x2`. -/
theorem apply_success_commits (ops : ContainerOps C T) (c : C)
    (f : T → T × Except E O) (o : O) (x2 : T)
    (h : f (ops.take_ref c) = (x2, Except.ok o)) :
    (∃ consumed : ConsumedToken T,
        (Prepared.apply ops (Prepared.new c f)).1 = Except.ok (o, consumed)) ∧
      ops.take_ref (Prepared.apply ops (Prepared.new c f)).2 = x2 := by
  have ha := Prepared.apply_eq_of_ok ops (Prepared.new c f) o x2 h
  rw [Prepared.new_inner] at ha
  refine ⟨⟨ConsumedToken.fromToken (ops.take_owned (ops.take_mut_set c x2)), ?_⟩, ?_⟩
  · rw [ha]
  · rw [ha]
    exact ops.take_ref_set c x2

/-- Witness for C1, the spec's Example 1: guarded value `5`, transform
"increment and return the new value"; commit yields `Ok((6, consumed))` and the
slot reads `6`. -/
theorem apply_success_commits_witness :
    (∃ consumed : ConsumedToken Nat,
        (Prepared.apply (Container.ops Nat)
            (Prepared.new (⟨5, ⟨0⟩⟩ : Container Nat)
              (fun x => (x + 1, (Except.ok (x + 1) : Except String Nat))))).1
          = Except.ok (6, consumed)) ∧
      (Container.ops Nat).take_ref
          (Prepared.apply (Container.ops Nat)
            (Prepared.new (⟨5, ⟨0⟩⟩ : Container Nat)
              (fun x => (x + 1, (Except.ok (x + 1) : Except String Nat))))).2 = 6 :=
  apply_success_commits (Container.ops Nat) (⟨5, ⟨0⟩⟩ : Container Nat)
    (fun x => (x + 1, (Except.ok (x + 1) : Except String Nat))) 6 6 rfl

/-- C2: for every container holding guarded value `x` and every transform `F`
such that `F(x)` fails with error `e` (possibly after mutating its scratch
argument to some `y`), `apply` returns `Err((e, token))` with `token` the
freshly extracted Token of the container, and the guarded slot still holds the
original `x`. -/
theorem apply_failure_preserves (ops : ContainerOps C T) (c : C)
    (f : T → T × Except E O) (e : E) (y : T)
    (h : f (ops.take_ref c) = (y, Except.error e)) :
    (Prepared.apply ops (Prepared.new c f)).1
        = Except.error (e, ops.take_owned c) ∧
      ops.take_ref (Prepared.apply ops (Prepared.new c f)).2 = ops.take_ref c := by
  have ha := Prepared.apply_eq_of_error ops (Prepared.new c f) e y h
  rw [Prepared.new_inner] at ha
  exact ⟨by rw [ha], by rw [ha]⟩

/-- Witness for C2, the spec's Example 2: guarded value `5`, transform
"mutate the scratch to 99, then fail with reason R"; commit yields
`Err((R, token))` and the slot still reads `5`. -/
theorem apply_failure_preserves_witness :
    (Prepared.apply (Container.ops Nat)
          (Prepared.new (⟨5, ⟨0⟩⟩ : Container Nat)
            (fun _ => (99, (Except.error "R" : Except String Nat))))).1
        = Except.error ("R", ⟨0⟩) ∧
      (Container.ops Nat).take_ref
          (Prepared.apply (Container.ops Nat)
            (Prepared.new (⟨5, ⟨0⟩⟩ : Container Nat)
              (fun _ => (99, (Except.error "R" : Except String Nat))))).2
        = (Container.ops Nat).take_ref (⟨5, ⟨0⟩⟩ : Container Nat) :=
  apply_failure_preserves (Container.ops Nat) (⟨5, ⟨0⟩⟩ : Container Nat)
    (fun _ => (99, (Except.error "R" : Except String Nat))) "R" 99 rfl

/-- C3: every call to `apply` produces exactly one of {Token, ConsumedToken}:
the Ok branch carries a ConsumedToken and no Token, the Err branch carries a
Token and no ConsumedToken. (The impossibility of committing a unit twice is
enforced by Rust's move semantics: `apply` takes `self` by value.) -/
theorem apply_yields_exactly_one_capability (ops : ContainerOps C T)
    (p : Prepared C (T → T × Except E O)) :
    ((∃ o : O, ∃ ct : ConsumedToken T,
          (Prepared.apply ops p).1 = Except.ok (o, ct)) ∧
        ¬∃ e : E, ∃ t : Token T, (Prepared.apply ops p).1 = Except.error (e, t)) ∨
      ((∃ e : E, ∃ t : Token T,
          (Prepared.apply ops p).1 = Except.error (e, t)) ∧
        ¬∃ o : O, ∃ ct : ConsumedToken T,
          (Prepared.apply ops p).1 = Except.ok (o, ct)) := by
  cases hr : (Prepared.apply ops p).1 with
  | ok v =>
      left
      refine ⟨⟨v.1, v.2, rfl⟩, ?_⟩
      rintro ⟨e, t, he⟩
      exact Except.noConfusion he
  | error v =>
      right
      refine ⟨⟨v.1, v.2, rfl⟩, ?_⟩
      rintro ⟨o, ct, ho⟩
      exact Except.noConfusion ho

/-- C4: for every `Chain(A, B)`, if applying A fails then applying the Chain
fails immediately with A's error and A's freshly extracted Token, and B's
transform is never invoked: the result is stated for an arbitrary transform
`fB` of B and does not depend on it, and B's container is left untouched. -/
theorem chain_short_circuits_on_a_failure {CA TA EA OA CB TB EB OB : Type}
    (opsA : ContainerOps CA TA) (opsB : ContainerOps CB TB)
    (a : Prepared CA (TA → TA × Except EA OA)) (cb : CB)
    (fB : TB → TB × Except EB OB) (e : EA) (y : TA)
    (h : a.f (opsA.take_ref a.inner) = (y, Except.error e)) :
    Chain.apply opsA opsB (Prepared.chain a (Prepared.new cb fB))
      = (Except.error (Sum.inl (e, opsA.take_owned a.inner)), a.inner, cb) := by
  have ha := Prepared.apply_eq_of_error opsA a e y h
  simp [Chain.apply, Prepared.chain, Chain.new, Prepared.new_inner, ha]

/-- Witness for C4: A guards `5` with a failing transform, B guards `7` with an
incrementing transform; the Chain fails with A's error and Token, and B's
container still holds `7`. -/
theorem chain_short_circuits_on_a_failure_witness :
    Chain.apply (Container.ops Nat) (Container.ops Nat)
        (Prepared.chain
          (Prepared.new (⟨5, ⟨0⟩⟩ : Container Nat)
            (fun x => (x, (Except.error "R" : Except String Nat))))
          (Prepared.new (⟨7, ⟨1⟩⟩ : Container Nat)
            (fun x => (x + 1, (Except.ok (x + 1) : Except String Nat)))))
      = (Except.error (Sum.inl ("R", ⟨0⟩)),
         (⟨5, ⟨0⟩⟩ : Container Nat), (⟨7, ⟨1⟩⟩ : Container Nat)) :=
  chain_short_circuits_on_a_failure (Container.ops Nat) (Container.ops Nat)
    (Prepared.new (⟨5, ⟨0⟩⟩ : Container Nat)
      (fun x => (x, (Except.error "R" : Except String Nat))))
    (⟨7, ⟨1⟩⟩ : Container Nat)
    (fun x => (x + 1, (Except.ok (x + 1) : Except String Nat))) "R" 5 rfl

/-- C5: `cancel` and `unchecked_cancel` never invoke the stored transform
(both return the Token of the untouched container for every stored transform
`f`, so the result is independent of `f`), leave the guarded value unchanged
(only the token of the unmodified container is read), and return the extracted
Token. -/
theorem cancel_never_runs_transform (ops : ContainerOps C T) (c : C) (f : F) :
    Prepared.cancel ops (Prepared.new c f) = ops.take_owned c ∧
      Prepared.unchecked_cancel ops (Prepared.new c f) = ops.take_owned c :=
  ⟨rfl, rfl⟩

/-- C6: `Prepared::new(container, f)` has no side effects: it returns exactly
the record storing the container and `f` unchanged, so `f` is stored but not
invoked at construction time; the transform is consulted only by `apply`. -/
theorem new_stores_without_running (c : C) (f : F) :
    (Prepared.new c f).inner = c ∧ (Prepared.new c f).f = f :=
  ⟨rfl, rfl⟩

/-- C7: `get_next` returns a copy equal to the container's current guarded
value; the unit (and hence the container's original value) is left unchanged,
`get_next` being a read-only operation. -/
theorem get_next_copies_current_value (ops : ContainerOps C T)
    (p : Prepared C F) :
    Prepared.get_next ops p = ops.take_ref p.inner :=
  rfl

/-- C8: `unchecked_cancel` returns exactly the same Token as `cancel`: it is a
safe wrapper with no additional effect, so the two cancellation operations are
behaviorally equivalent. -/
theorem unchecked_cancel_eq_cancel (ops : ContainerOps C T) (p : Prepared C F) :
    Prepared.unchecked_cancel ops p = Prepared.cancel ops p :=
  rfl

/-- C9: `Prepared::new` stores its arguments unchanged: `take_ref` on the
resulting unit returns the stored transform, and `take_owned` on the resulting
unit yields exactly the token that the outer container's own `take_owned`
yields. -/
theorem new_stores_arguments_unchanged (ops : ContainerOps C T) (c : C) (f : F) :
    Prepared.take_ref (Prepared.new c f) = f ∧
      Prepared.take_owned ops (Prepared.new c f) = ops.take_owned c :=
  ⟨rfl, rfl⟩

/-- C10: `apply` invokes the transform exactly once: its entire result, on both
the success and the failure path, equals a case split over a single application
of the transform to the scratch copy of the guarded value (the Rust clone of
the stored transform is the identity on pure functions, and the stored
original is dropped unused). -/
theorem apply_invokes_transform_once (ops : ContainerOps C T) (c : C)
    (f : T → T × Except E O) :
    Prepared.apply ops (Prepared.new c f)
      = match f (ops.take_ref c) with
        | (_, Except.error e) => (Except.error (e, ops.take_owned c), c)
        | (nxt, Except.ok o) =>
            (Except.ok (o, ConsumedToken.fromToken
                (ops.take_owned (ops.take_mut_set c nxt))),
             ops.take_mut_set c nxt) := by
  cases hf : f (ops.take_ref c) with
  | mk nxt r =>
      cases r with
      | error e =>
          exact Prepared.apply_eq_of_error ops (Prepared.new c f) e nxt hf
      | ok o =>
          exact Prepared.apply_eq_of_ok ops (Prepared.new c f) o nxt hf

end Onemut
